import Mathlib

/-!
Verification of the Virtual-Serial-Data-Logger repository.

The repository has two stages:
* `logger_service.py` — reads newline-terminated byte lines from a serial
  port, decodes them as UTF-8, strips whitespace, parses the wire format
  `T:<float>,V:<float>,S:<token>` and appends to three sinks (raw audit
  log, structured CSV, parse-error log);
* `detector.py` — loads the structured CSV, sorts by timestamp and runs
  four anomaly detectors, then stable-sorts the anomalies by timestamp.

This file is a shallow embedding of both stages.  Python strings are
modelled as `List Char`, byte strings as `List Nat`, Python `float(...)`
as an exact decimal parser (see `pyFloat`; binary64 rounding/overflow of
finite decimals is not modelled — finite decimals are kept as exact
rationals; the spellings of infinity and NaN are modelled exactly),
timestamps on the analysis side as rational numbers of seconds.
-/

namespace VSDL

/-! ### Python string primitives -/

/-- Python `str.isspace` characters relevant to `str.strip()` /
`float()` stripping, restricted to the ASCII range (the repository's wire
format is ASCII; non-ASCII unicode whitespace is not modelled). -/
def pyIsSpace (c : Char) : Bool :=
  c = ' ' || c = '\t' || c = '\n' || c = '\r' || c = Char.ofNat 11 || c = Char.ofNat 12

/-- Python `s.strip()`: drop leading and trailing whitespace. -/
def pyStrip (cs : List Char) : List Char :=
  ((cs.dropWhile pyIsSpace).reverse.dropWhile pyIsSpace).reverse

/-- Python `s.split(sep)` for a one-character separator: no collapsing of
adjacent separators, `"".split(sep) == [""]`. -/
def splitOnChar (sep : Char) : List Char → List (List Char)
  | [] => [[]]
  | c :: cs =>
    if c = sep then [] :: splitOnChar sep cs
    else
      match splitOnChar sep cs with
      | [] => [[c]]
      | p :: ps => (c :: p) :: ps

/-- Python `s.startswith(pre)`. -/
def pyStartswith (pre s : List Char) : Bool :=
  pre.isPrefixOf s

/-! ### UTF-8 decoding (`bytes.decode('utf-8')`, strict mode)

`utf8Step` consumes one scalar value from the head of a byte list,
rejecting continuation-byte errors, overlong encodings, surrogates and
code points above `0x10FFFF` — the acceptance set of CPython's strict
UTF-8 decoder. -/

def utf8Cont (b : Nat) : Bool := 0x80 ≤ b && b < 0xC0

def utf8Step : List Nat → Option (Nat × List Nat)
  | [] => none
  | b :: bs =>
    if b < 0x80 then some (b, bs)
    else if b < 0xC2 then none
    else if b < 0xE0 then
      match bs with
      | b1 :: r => if utf8Cont b1 then some ((b - 0xC0) * 0x40 + (b1 - 0x80), r) else none
      | _ => none
    else if b < 0xF0 then
      match bs with
      | b1 :: b2 :: r =>
        if utf8Cont b1 && utf8Cont b2 then
          let cp := (b - 0xE0) * 0x1000 + (b1 - 0x80) * 0x40 + (b2 - 0x80)
          if 0x800 ≤ cp && ¬ (0xD800 ≤ cp && cp ≤ 0xDFFF) then some (cp, r) else none
        else none
      | _ => none
    else if b < 0xF5 then
      match bs with
      | b1 :: b2 :: b3 :: r =>
        if utf8Cont b1 && utf8Cont b2 && utf8Cont b3 then
          let cp := (b - 0xF0) * 0x40000 + (b1 - 0x80) * 0x1000 + (b2 - 0x80) * 0x40 + (b3 - 0x80)
          if 0x10000 ≤ cp && cp ≤ 0x10FFFF then some (cp, r) else none
        else none
      | _ => none
    else none

/-- Decoding loop; the fuel is the length of the byte list, which bounds
the number of scalar values (each step consumes at least one byte). -/
def utf8DecodeAux : Nat → List Nat → Option (List Char)
  | _, [] => some []
  | 0, _ :: _ => none
  | fuel + 1, b :: bs =>
    match utf8Step (b :: bs) with
    | none => none
    | some (cp, r) => (utf8DecodeAux fuel r).map (Char.ofNat cp :: ·)

/-- `bytes.decode('utf-8')` — `some` of the decoded characters, or `none`
when CPython would raise `UnicodeDecodeError`. -/
def utf8Decode (bs : List Nat) : Option (List Char) :=
  utf8DecodeAux bs.length bs

/-! ### Python `float(string)` -/

/-- The result of Python `float(...)`: a finite value (kept as an exact
rational), a signed infinity, or NaN. -/
inductive PyFloat where
  | finite (q : ℚ)
  | infinite (neg : Bool)
  | nan
deriving DecidableEq, Repr, Inhabited

def PyFloat.isFinite : PyFloat → Bool
  | .finite _ => true
  | _ => false

def digitVal (c : Char) : ℕ := c.toNat - '0'.toNat

def natOfDigits (ds : List Char) : ℕ :=
  ds.foldl (fun a c => a * 10 + digitVal c) 0

/-- Value of a decimal literal with integer digits `ip`, fraction digits
`fp` and exponent `ex`, with sign `neg`. -/
def decValue (neg : Bool) (ip fp : List Char) (ex : Int) : ℚ :=
  let mag : ℚ := ((natOfDigits ip : ℚ) + (natOfDigits fp : ℚ) / (10 : ℚ) ^ fp.length) * (10 : ℚ) ^ ex
  if neg then -mag else mag

/-- CPython's PEP-515 underscore rule for `float(str)`: every `_` must be
immediately surrounded by two ASCII digits; returns the text with the
underscores removed, or `none` when the rule is violated. -/
def stripUnderscoresAux (prev : Option Char) : List Char → Option (List Char)
  | [] => some []
  | c :: rest =>
    if c = '_' then
      match prev, rest with
      | some p, n :: _ =>
        if p.isDigit && n.isDigit then stripUnderscoresAux (some c) rest else none
      | _, _ => none
    else (stripUnderscoresAux (some c) rest).map (c :: ·)

/-- The numeric body of a Python float literal (sign already consumed,
underscores already removed): `digits [. digits] [ (e|E) [sign] digits ]`
with at least one digit before the exponent marker. -/
def parseFloatBody (neg : Bool) (cs : List Char) : Option ℚ :=
  let s1 := cs.span (·.isDigit)
  let ip := s1.1
  let s2 : Bool × List Char :=
    match s1.2 with
    | '.' :: t => (true, t)
    | _ => (false, s1.2)
  let s3 : List Char × List Char := if s2.1 then s2.2.span (·.isDigit) else ([], s2.2)
  let fp := s3.1
  if ip.isEmpty && fp.isEmpty then none
  else
    match s3.2 with
    | [] => some (decValue neg ip fp 0)
    | e :: r4 =>
      if e = 'e' || e = 'E' then
        let s5 : Bool × List Char :=
          match r4 with
          | '+' :: t => (false, t)
          | '-' :: t => (true, t)
          | _ => (false, r4)
        let s6 := s5.2.span (·.isDigit)
        if s6.1.isEmpty || ¬ s6.2.isEmpty then none
        else
          some (decValue neg ip fp
            (if s5.1 then -(natOfDigits s6.1 : Int) else (natOfDigits s6.1 : Int)))
      else none

/-- Case-insensitive comparison against an ASCII keyword. -/
def lowerEq (cs : List Char) (s : List Char) : Bool :=
  cs.map Char.toLower == s

/-- Python's builtin `float(string)`: strips whitespace, takes an optional
sign, accepts the case-insensitive spellings `inf`/`infinity`/`nan`, and
otherwise parses a decimal literal (PEP-515 underscores allowed).
Returns `none` exactly when CPython raises `ValueError`.  Finite decimals
are kept exact as rationals (binary64 rounding, and overflow of huge
finite decimals to infinity, are not modelled; no claim below depends on
them — non-finite inputs are exercised through the explicit spellings). -/
def pyFloat (s : List Char) : Option PyFloat :=
  let t := pyStrip s
  let sgn : Bool × List Char :=
    match t with
    | '+' :: r => (false, r)
    | '-' :: r => (true, r)
    | _ => (false, t)
  if lowerEq sgn.2 "inf".data || lowerEq sgn.2 "infinity".data then some (.infinite sgn.1)
  else if lowerEq sgn.2 "nan".data then some .nan
  else
    match stripUnderscoresAux none sgn.2 with
    | none => none
    | some v => (parseFloatBody sgn.1 v).map .finite

/-! ### The record parser (logger_service.py, lines 53–75) -/

/-- `parts[i].split(':')[1]`: the piece of text between the first and the
second colon (the whole remainder when there is no second colon).  The
`startswith` guard guarantees at least one colon, so the Python
`IndexError` cannot fire on the guarded path. -/
def secondColonPiece (p : List Char) : List Char :=
  (splitOnChar ':' p).getD 1 []

structure ParsedFields where
  temperature : PyFloat
  voltage : PyFloat
  statusCode : List Char
deriving DecidableEq, Repr, Inhabited


/-- The shape test of line 57: exactly three comma-separated parts with
the exact untrimmed prefixes `T:`, `V:`, `S:`. -/
def wellShaped (parts : List (List Char)) : Bool :=
  parts.length = 3
    && pyStartswith "T:".data (parts.getD 0 [])
    && pyStartswith "V:".data (parts.getD 1 [])
    && pyStartswith "S:".data (parts.getD 2 [])

/-- The parse branch of the main loop (lines 53–75): split on commas,
check the shape, extract `split(':')[1]` of each part, convert the
temperature and voltage with `float(...)`.  `Except.error` corresponds to
the `ValueError` caught by the handler at line 77 (the raised
`Malformed data structure` error, or a failed `float` conversion); the
error payloads stand in for the Python exception messages. -/
def parseLine (line : List Char) : Except String ParsedFields :=
  if wellShaped (splitOnChar ',' line) then
    match pyFloat (secondColonPiece ((splitOnChar ',' line).getD 0 [])) with
    | none => .error "could not convert string to float: temperature"
    | some t =>
      match pyFloat (secondColonPiece ((splitOnChar ',' line).getD 1 [])) with
      | none => .error "could not convert string to float: voltage"
      | some v => .ok ⟨t, v, secondColonPiece ((splitOnChar ',' line).getD 2 [])⟩
  else .error "Malformed data structure"

/-- `true` iff `parseLine` reaches the CSV write (no `ValueError`): the
constructor of the parse outcome, observable without evaluating the
parsed numbers. -/
def parseSucceeds (line : List Char) : Bool :=
  match parseLine line with
  | .ok _ => true
  | .error _ => false

/-- The status token of a successfully parsed line. -/
def parsedStatus (line : List Char) : Option (List Char) :=
  match parseLine line with
  | .ok r => some r.statusCode
  | .error _ => none

/-- The temperature of a successfully parsed line. -/
def parsedTemperature (line : List Char) : Option PyFloat :=
  match parseLine line with
  | .ok r => some r.temperature
  | .error _ => none

/-! ### The ingestion service (logger_service.py, sections 3 and 4) -/

structure RawEntry where
  ts : String
  line : List Char
deriving DecidableEq, Repr

structure ErrEntry where
  ts : String
  msg : String
deriving DecidableEq, Repr

/-- A row of `structured_metrics.csv` below the header. -/
structure SRecord where
  ts : String
  temperature : PyFloat
  voltage : PyFloat
  statusCode : List Char
deriving DecidableEq, Repr

inductive CsvRow where
  | header
  | data (r : SRecord)
deriving DecidableEq, Repr

/-- The three file sinks of the service. -/
structure SinkState where
  raw : List RawEntry
  csv : List CsvRow
  errors : List ErrEntry
deriving DecidableEq, Repr

/-- The per-iteration environment: the bytes returned by
`ser.readline()`, the value of `datetime.now().isoformat()`, and whether
each of the three file appends would raise an `OSError` this iteration. -/
structure LineInput where
  bytes : List Nat
  now : String
  rawLogFails : Bool
  csvFails : Bool
  errLogFails : Bool
deriving DecidableEq, Repr

/-- Exceptions that escape the `while` loop: the `UnicodeDecodeError`
raised at line 36 (outside every handler that would catch it), and an
`OSError` on the structured CSV append at line 67 (inside a `try` that
catches only `ValueError` and `IndexError`).  Neither is a
`serial.SerialException` nor a `KeyboardInterrupt`, so both terminate the
service. -/
inductive CrashReason where
  | decodeFailure
  | csvWriteFailure
deriving DecidableEq, Repr

inductive StepResult where
  | ok (s : SinkState)
  | crashed (s : SinkState) (why : CrashReason)
deriving DecidableEq, Repr

def StepResult.state : StepResult → SinkState
  | .ok s => s
  | .crashed s _ => s

/-- Section 3 of logger_service.py: `open(CSV_FILE, 'w')` truncates the
structured CSV and writes the header row; a failure of this setup is
caught and only printed, leaving the file as it was. -/
def csvSetup (setupFails : Bool) (s : SinkState) : SinkState :=
  if setupFails then s else { s with csv := [CsvRow.header] }

/-- One iteration of the main `while` loop (lines 33–90) on a line of
input.  Decode failure escapes (nothing written); empty post-strip lines
are skipped; the raw-log append is guarded by its own
`try/except Exception` (a failure is only printed); a parse failure is
appended to the error log under its own `try/except Exception`; a CSV
append failure escapes the loop (the surrounding handler catches only
`ValueError`/`IndexError`). -/
def serviceStep (s : SinkState) (inp : LineInput) : StepResult :=
  match utf8Decode inp.bytes with
  | none => .crashed s .decodeFailure
  | some text =>
    let line := pyStrip text
    if line.isEmpty then .ok s
    else
      let s1 : SinkState :=
        if inp.rawLogFails then s
        else { s with raw := s.raw ++ [⟨inp.now, line⟩] }
      match parseLine line with
      | .ok r =>
        if inp.csvFails then .crashed s1 .csvWriteFailure
        else .ok { s1 with csv := s1.csv ++ [.data ⟨inp.now, r.temperature, r.voltage, r.statusCode⟩] }
      | .error m =>
        if inp.errLogFails then .ok s1
        else .ok { s1 with errors := s1.errors ++ [⟨inp.now, m⟩] }

/-- The loop itself: process inputs in order; a crash stops the service,
leaving the remaining inputs unprocessed. -/
def serviceRun (s : SinkState) : List LineInput → SinkState × Option CrashReason
  | [] => (s, none)
  | inp :: rest =>
    match serviceStep s inp with
    | .ok s1 => serviceRun s1 rest
    | .crashed s1 why => (s1, some why)

/-! ### The anomaly detection engine (detector.py)

The engine works on the rows read back from `structured_metrics.csv`
(`pd.read_csv(..., parse_dates=['timestamp'])`).  Timestamps become
`datetime64` instants, modelled as rational numbers of seconds;
temperature and voltage columns are floats, modelled as rationals.  The
f-string descriptions of the anomalies interpolate exactly one number
(the measured value, the signed delta, or the gap in seconds); that
number is carried as the `value` field. -/

structure Record where
  timestamp : ℚ
  temperature : ℚ
  voltage : ℚ
  statusCode : String
deriving DecidableEq, Repr, Inhabited

inductive AnomalyKind where
  | thresholdBreachTemp
  | thresholdBreachVoltage
  | rapidChangeTemp
  | heartbeatLoss
deriving DecidableEq, Repr

inductive Severity where
  | warning
  | critical
deriving DecidableEq, Repr

structure Anomaly where
  timestamp : ℚ
  kind : AnomalyKind
  severity : Severity
  value : ℚ
deriving DecidableEq, Repr

def TEMP_THRESHOLD : ℚ := 80

def VOLTAGE_THRESHOLD_HIGH : ℚ := 11 / 2

def VOLTAGE_THRESHOLD_LOW : ℚ := 9 / 2

def TEMP_RATE_OF_CHANGE_THRESHOLD : ℚ := 15

def HEARTBEAT_TIMEOUT_SECONDS : ℚ := 4

/-- Detection method 1 (temperature): rows with
`temperature > TEMP_THRESHOLD`, in row order. -/
def tempAnomalies (df : List Record) : List Anomaly :=
  (df.filter (fun r => decide (TEMP_THRESHOLD < r.temperature))).map
    (fun r => ⟨r.timestamp, .thresholdBreachTemp, .critical, r.temperature⟩)

/-- Detection method 1 (voltage): rows outside the `[4.5, 5.5]` band. -/
def voltageAnomalies (df : List Record) : List Anomaly :=
  (df.filter (fun r =>
      decide (VOLTAGE_THRESHOLD_HIGH < r.voltage ∨ r.voltage < VOLTAGE_THRESHOLD_LOW))).map
    (fun r => ⟨r.timestamp, .thresholdBreachVoltage, .critical, r.voltage⟩)

/-- `df['temperature'].diff()` at row `i ≥ 1`. -/
def tempChange (df : List Record) (i : ℕ) : ℚ :=
  (df.getD i default).temperature - (df.getD (i - 1) default).temperature

/-- `df['timestamp'].diff()` at row `i ≥ 1`, in seconds. -/
def timeDiff (df : List Record) (i : ℕ) : ℚ :=
  (df.getD i default).timestamp - (df.getD (i - 1) default).timestamp

/-- Detection method 2: `diff()` of the temperature column; the first
row's diff is NaN and `NaN.abs() > threshold` is `False` in pandas, so
row 0 never fires. -/
def rocAnomalies (df : List Record) : List Anomaly :=
  (List.range df.length).filterMap (fun i =>
    if i = 0 then none
    else if TEMP_RATE_OF_CHANGE_THRESHOLD < |tempChange df i| then
      some ⟨(df.getD i default).timestamp, .rapidChangeTemp, .warning, tempChange df i⟩
    else none)

/-- Detection method 3: `diff()` of the timestamp column compared against
`timedelta(seconds=4)`; the first row's diff is NaT and never fires. -/
def heartbeatAnomalies (df : List Record) : List Anomaly :=
  (List.range df.length).filterMap (fun i =>
    if i = 0 then none
    else if HEARTBEAT_TIMEOUT_SECONDS < timeDiff df i then
      some ⟨(df.getD i default).timestamp, .heartbeatLoss, .critical, timeDiff df i⟩
    else none)

def recordLE (a b : Record) : Prop := a.timestamp ≤ b.timestamp

instance : DecidableRel recordLE := fun a b => inferInstanceAs (Decidable (a.timestamp ≤ b.timestamp))

/-- `df.sort_values(by='timestamp').reset_index(drop=True)`.  pandas'
default sort kind is `'quicksort'` (numpy introsort), which sorts the
rows ascending by timestamp but gives NO guarantee on the relative order
of rows with equal timestamps (only `'mergesort'`/`'stable'` are stable).
We embed it as a stable insertion sort; no theorem in this file depends
on the order this function gives to equal-timestamp rows (the claim that
does depend on it, C6, is left unresolved for exactly this reason). -/
def sortValuesByTimestamp (df : List Record) : List Record :=
  List.insertionSort recordLE df

def anomalyLE (a b : Anomaly) : Prop := a.timestamp ≤ b.timestamp

instance : DecidableRel anomalyLE := fun a b => inferInstanceAs (Decidable (a.timestamp ≤ b.timestamp))

instance : IsTotal Anomaly anomalyLE := ⟨fun a b => le_total a.timestamp b.timestamp⟩

instance : IsTrans Anomaly anomalyLE := ⟨fun _ _ _ h1 h2 => le_trans h1 h2⟩

/-- The four detectors appending to `anomalies_found`, in program order:
temperature threshold, voltage threshold, rate-of-change, heartbeat. -/
def allDetectorAnomalies (df : List Record) : List Anomaly :=
  tempAnomalies df ++ voltageAnomalies df ++ rocAnomalies df ++ heartbeatAnomalies df

/-- The whole engine: defensive sort of the input rows, the four
detectors, then `anomalies_found.sort(key=lambda x: x['timestamp'])`.
Python's `list.sort` is Timsort, a stable sort; a stable sort by a key is
extensionally unique, and is embedded here as stable insertion sort. -/
def detect (records : List Record) : List Anomaly :=
  List.insertionSort anomalyLE (allDetectorAnomalies (sortValuesByTimestamp records))

/-! ### Helpers for concrete inputs -/

/-- Byte encoding of an ASCII string (every line of the wire format). -/
def asciiBytes (s : String) : List Nat :=
  s.data.map (fun c => c.toNat)

/-- A line input whose three sinks all succeed. -/
def mkInput (bs : List Nat) (now : String) : LineInput :=
  ⟨bs, now, false, false, false⟩

def emptySinks : SinkState := ⟨[], [], []⟩

/-! ### Claim C1 — decode failures -/

/-- C1 counterexample: on the two-line input `[0xFF]` (invalid UTF-8)
then a valid reading, the service crashes at the first line with
`decodeFailure`: the error log stays empty (no ParseErrorRecord with any
reason is recorded) and the subsequent valid line is never ingested
(the csv still holds only the header), contradicting the claim that a
decode failure is recorded and never halts the ingestion service. -/
theorem C1_counterexample :
    serviceRun ⟨[], [CsvRow.header], []⟩
        [⟨[0xFF], "t0", false, false, false⟩, mkInput (asciiBytes "T:1.0,V:2.0,S:OK") "t1"] =
      (⟨[], [CsvRow.header], []⟩, some CrashReason.decodeFailure) := by
  decide

/-- C1 amended: a received line whose bytes are not valid UTF-8 raises
`UnicodeDecodeError` at `line 36`, outside every handler of the loop: no
ParseErrorRecord (indeed no record at all) is written for it, the
ingestion service halts at once, and the remaining lines are never
processed. -/
theorem C1_theorem :
    ∀ (s : SinkState) (inp : LineInput) (rest : List LineInput),
      utf8Decode inp.bytes = none →
      serviceStep s inp = .crashed s .decodeFailure ∧
      serviceRun s (inp :: rest) = (s, some .decodeFailure) := by
  intro s inp rest h
  have hstep : serviceStep s inp = .crashed s .decodeFailure := by
    unfold serviceStep
    rw [h]
  exact ⟨hstep, by unfold serviceRun; rw [hstep]⟩

/-- C1 witness: the amended theorem applied at the concrete invalid byte
`0xFF`. -/
theorem C1_witness :
    utf8Decode [0xFF] = none ∧
    serviceStep emptySinks ⟨[0xFF], "t0", false, false, false⟩ =
      .crashed emptySinks .decodeFailure ∧
    serviceRun emptySinks [⟨[0xFF], "t0", false, false, false⟩] =
      (emptySinks, some .decodeFailure) :=
  ⟨by decide,
   (C1_theorem emptySinks ⟨[0xFF], "t0", false, false, false⟩ [] (by decide)).1,
   (C1_theorem emptySinks ⟨[0xFF], "t0", false, false, false⟩ [] (by decide)).2⟩

/-! ### Claim C4 — sink I/O failures -/

/-- C4 counterexample: a valid reading processed while the structured CSV
append raises an `OSError` (`csvFails = true`) crashes the service with
`csvWriteFailure` — the claim that an I/O failure on any of the three
sinks keeps the service running is false for the structured store, whose
append sits in a `try` that catches only `ValueError`/`IndexError`. -/
theorem C4_counterexample :
    serviceStep emptySinks ⟨asciiBytes "T:1.0,V:2.0,S:OK", "t0", false, true, false⟩ =
      .crashed ⟨[⟨"t0", "T:1.0,V:2.0,S:OK".data⟩], [], []⟩ .csvWriteFailure := by
  decide

/-- C4 amended: failures of the raw audit log and of the parse-error log
are recovered locally (the step always continues on the parse-error path,
whatever sinks fail), and a successfully parsed line continues when the
CSV append succeeds; but an I/O failure on the structured store append of
a parsed line escapes the loop and terminates the service. -/
theorem C4_theorem :
    ∀ (s : SinkState) (inp : LineInput) (text : List Char),
      utf8Decode inp.bytes = some text →
      (pyStrip text).isEmpty = false →
      (parseSucceeds (pyStrip text) = false → ∃ s1, serviceStep s inp = .ok s1) ∧
      (parseSucceeds (pyStrip text) = true → inp.csvFails = false →
        ∃ s1, serviceStep s inp = .ok s1) ∧
      (parseSucceeds (pyStrip text) = true → inp.csvFails = true →
        serviceStep s inp =
          .crashed (if inp.rawLogFails then s
                    else { s with raw := s.raw ++ [⟨inp.now, pyStrip text⟩] })
            .csvWriteFailure) := by
  intro s inp text hdec hne
  refine ⟨?_, ?_, ?_⟩
  · intro hp
    unfold serviceStep
    rw [hdec]
    simp only [hne, Bool.false_eq_true, if_false]
    cases hm : parseLine (pyStrip text) with
    | ok r =>
      rw [parseSucceeds, hm] at hp
      exact absurd hp (by simp)
    | error m =>
      dsimp only
      cases inp.errLogFails <;> simp
  · intro hp hcsv
    unfold serviceStep
    rw [hdec]
    simp only [hne, Bool.false_eq_true, if_false]
    cases hm : parseLine (pyStrip text) with
    | ok r =>
      dsimp only
      rw [hcsv]
      simp
    | error m =>
      rw [parseSucceeds, hm] at hp
      exact absurd hp (by simp)
  · intro hp hcsv
    unfold serviceStep
    rw [hdec]
    simp only [hne, Bool.false_eq_true, if_false]
    cases hm : parseLine (pyStrip text) with
    | ok r =>
      dsimp only
      rw [hcsv]
      simp
    | error m =>
      rw [parseSucceeds, hm] at hp
      exact absurd hp (by simp)

/-- C4 witness: the amended theorem applied to the valid reading
`T:1.0,V:2.0,S:OK` with a failing CSV sink. -/
theorem C4_witness :
    serviceStep emptySinks ⟨asciiBytes "T:1.0,V:2.0,S:OK", "t0", false, true, false⟩ =
      .crashed ⟨[⟨"t0", "T:1.0,V:2.0,S:OK".data⟩], [], []⟩ .csvWriteFailure :=
  (C4_theorem emptySinks ⟨asciiBytes "T:1.0,V:2.0,S:OK", "t0", false, true, false⟩
      "T:1.0,V:2.0,S:OK".data (by decide) (by decide)).2.2 (by decide) rfl

/-! ### Claim C5 — append-only structured store -/

def sampleSRecord : SRecord := ⟨"t0", .finite 50, .finite 5, "OK".data⟩

/-- C5 counterexample: the CSV setup of Section 3 (`open(CSV_FILE, 'w')`)
at a service startup truncates a store that already holds a persisted
structured record down to the bare header row — the record does not
survive service startup, contradicting the claim. -/
theorem C5_counterexample :
    csvSetup false ⟨[], [CsvRow.header, .data sampleSRecord], []⟩ = ⟨[], [CsvRow.header], []⟩ ∧
    CsvRow.data sampleSRecord ∉ [CsvRow.header] := by
  constructor
  · rfl
  · decide

/-- C5 amended: within a single run the structured store is append-only —
every loop iteration leaves the existing csv rows in place, at most
appending after them — but a service startup truncates the store to just
the header row, deleting all previously persisted structured records. -/
theorem C5_theorem :
    ∀ (s : SinkState) (inp : LineInput),
      (∃ suffix, ((serviceStep s inp).state).csv = s.csv ++ suffix) ∧
      (csvSetup false s).csv = [CsvRow.header] := by
  intro s inp
  refine ⟨?_, rfl⟩
  unfold serviceStep
  cases utf8Decode inp.bytes with
  | none => exact ⟨[], by simp [StepResult.state]⟩
  | some text =>
    dsimp only
    by_cases hemp : (pyStrip text).isEmpty
    · simp only [hemp, if_true]
      exact ⟨[], by simp [StepResult.state]⟩
    · simp only [hemp, Bool.false_eq_true, if_false]
      have hs1 : (if inp.rawLogFails then s
          else { s with raw := s.raw ++ [⟨inp.now, pyStrip text⟩] }).csv = s.csv := by
        cases inp.rawLogFails <;> rfl
      cases parseLine (pyStrip text) with
      | ok r =>
        dsimp only
        cases inp.csvFails with
        | true => exact ⟨[], by simp [StepResult.state, hs1]⟩
        | false =>
          exact ⟨[.data ⟨inp.now, r.temperature, r.voltage, r.statusCode⟩],
            by simp [StepResult.state, hs1]⟩
      | error m =>
        dsimp only
        cases inp.errLogFails with
        | true => exact ⟨[], by simp [StepResult.state, hs1]⟩
        | false => exact ⟨[], by simp [StepResult.state, hs1]⟩

/-! ### Shared lemmas about the parse-error path -/

/-- A line with three comma-separated parts is non-empty. -/
theorem ne_nil_of_three_parts {line : List Char}
    (h : (splitOnChar ',' line).length = 3) : line.isEmpty = false := by
  cases line with
  | nil => simp [splitOnChar] at h
  | cons c cs => rfl

/-- On a decoded non-empty line whose parse fails, the step continues,
the structured store is untouched, and (when the error-log append does
not itself fail) the parse error is appended to the error log. -/
theorem serviceStep_parse_error (s : SinkState) (inp : LineInput) (text : List Char) (m : String)
    (hdec : utf8Decode inp.bytes = some text)
    (hne : (pyStrip text).isEmpty = false)
    (hm : parseLine (pyStrip text) = .error m) :
    ∃ s1, serviceStep s inp = .ok s1 ∧ s1.csv = s.csv ∧
      (inp.errLogFails = false → s1.errors = s.errors ++ [⟨inp.now, m⟩]) := by
  unfold serviceStep
  rw [hdec]
  simp only [hne, Bool.false_eq_true, if_false, hm]
  cases hEL : inp.errLogFails with
  | true =>
    refine ⟨_, rfl, ?_, by simp⟩
    cases inp.rawLogFails <;> rfl
  | false =>
    refine ⟨_, rfl, ?_, ?_⟩
    · cases inp.rawLogFails <;> rfl
    · intro _
      cases inp.rawLogFails <;> rfl

/-! ### Claim C2 — the exact shape of a successful parse -/

/-- C2 counterexample: the claim ties success and the status token to the
*entire remainder after the prefix*; the code instead uses
`split(':')[1]`, the piece between the first two colons.  Concretely:
`T:1.0,V:2.0,S:OK:X` parses successfully with status token `OK`, not the
full remainder `OK:X`; and `T:1:5,V:2.0,S:OK` parses successfully even
though its temperature remainder `1:5` is not a float at all. -/
theorem C2_counterexample :
    (parseSucceeds "T:1.0,V:2.0,S:OK:X".data = true ∧
     parsedStatus "T:1.0,V:2.0,S:OK:X".data = some "OK".data ∧
     "OK".data ≠ "OK:X".data) ∧
    (parseSucceeds "T:1:5,V:2.0,S:OK".data = true ∧
     pyFloat "1:5".data = none) := by
  exact ⟨⟨by decide, by decide, by decide⟩, ⟨by decide, by decide⟩⟩

/-- C2 amended: parsing succeeds iff the line splits on commas into
exactly three fields with prefixes `T:`, `V:`, `S:` and the text of
fields 1 and 2 *between the first and second colon* (the whole remainder
when there is no second colon) parses as a Python float; on success the
status token is field 3's text between its first and second colon. -/
theorem C2_theorem :
    ∀ (line : List Char) (r : ParsedFields),
      parseLine line = .ok r ↔
        ((splitOnChar ',' line).length = 3 ∧
         pyStartswith "T:".data ((splitOnChar ',' line).getD 0 []) = true ∧
         pyStartswith "V:".data ((splitOnChar ',' line).getD 1 []) = true ∧
         pyStartswith "S:".data ((splitOnChar ',' line).getD 2 []) = true ∧
         ∃ t v,
           pyFloat (secondColonPiece ((splitOnChar ',' line).getD 0 [])) = some t ∧
           pyFloat (secondColonPiece ((splitOnChar ',' line).getD 1 [])) = some v ∧
           r = ⟨t, v, secondColonPiece ((splitOnChar ',' line).getD 2 [])⟩) := by
  intro line r
  constructor
  · intro h
    unfold parseLine at h
    by_cases hsh : wellShaped (splitOnChar ',' line) = true
    · rw [if_pos hsh] at h
      have hprops := hsh
      simp only [wellShaped, Bool.and_eq_true, decide_eq_true_eq] at hprops
      obtain ⟨⟨⟨hlen, hT⟩, hV⟩, hS⟩ := hprops
      cases hpt : pyFloat (secondColonPiece ((splitOnChar ',' line).getD 0 [])) with
      | none =>
        rw [hpt] at h
        exact absurd h (by simp)
      | some t =>
        cases hpv : pyFloat (secondColonPiece ((splitOnChar ',' line).getD 1 [])) with
        | none =>
          rw [hpt, hpv] at h
          exact absurd h (by simp)
        | some v =>
          rw [hpt, hpv] at h
          simp only [Except.ok.injEq] at h
          exact ⟨hlen, hT, hV, hS, t, v, rfl, rfl, h.symm⟩
    · rw [if_neg hsh] at h
      exact absurd h (by simp)
  · rintro ⟨hlen, hT, hV, hS, t, v, ht, hv, rfl⟩
    have hsh : wellShaped (splitOnChar ',' line) = true := by
      simp only [wellShaped, Bool.and_eq_true, decide_eq_true_eq]
      exact ⟨⟨⟨hlen, hT⟩, hV⟩, hS⟩
    unfold parseLine
    rw [if_pos hsh, ht, hv]

/-! ### Claim C3 — finiteness of stored values -/

/-- The temperatures of the structured rows of a sink state. -/
def csvTemps (s : SinkState) : List PyFloat :=
  s.csv.filterMap (fun row =>
    match row with
    | .header => none
    | .data r => some r.temperature)

/-- C3 counterexample: `T:inf,V:5.0,S:OK` parses successfully — Python's
`float('inf')` returns an infinity rather than raising — so the service
creates a StructuredRecord whose temperature is not finite, and records
no parse error; the claimed finiteness invariant is false. -/
theorem C3_counterexample :
    parseSucceeds "T:inf,V:5.0,S:OK".data = true ∧
    parsedTemperature "T:inf,V:5.0,S:OK".data = some (.infinite false) ∧
    (PyFloat.infinite false).isFinite = false ∧
    ((serviceStep emptySinks (mkInput (asciiBytes "T:inf,V:5.0,S:OK") "t0")).state).errors = [] ∧
    csvTemps ((serviceStep emptySinks (mkInput (asciiBytes "T:inf,V:5.0,S:OK") "t0")).state) =
      [PyFloat.infinite false] := by
  exact ⟨by decide, by decide, by decide, by decide, by decide⟩

/-- C3 amended: a StructuredRecord's temperature/voltage are whatever
Python `float` accepts — including non-finite values for the spellings of
infinity and NaN, as the stored `inf` temperature shows — but a line
whose temperature or voltage piece is *unparsable* yields a parse error:
no StructuredRecord is created and (when the error-log append succeeds)
a ParseErrorRecord is appended. -/
theorem C3_theorem :
    parsedTemperature "T:inf,V:5.0,S:OK".data = some (.infinite false) ∧
    (PyFloat.infinite false).isFinite = false ∧
    ∀ (line : List Char),
      wellShaped (splitOnChar ',' line) = true →
      (pyFloat (secondColonPiece ((splitOnChar ',' line).getD 0 [])) = none ∨
       pyFloat (secondColonPiece ((splitOnChar ',' line).getD 1 [])) = none) →
      ∃ m, parseLine line = .error m ∧
        ∀ (s : SinkState) (inp : LineInput),
          utf8Decode inp.bytes = some line →
          pyStrip line = line →
          ∃ s1, serviceStep s inp = .ok s1 ∧ s1.csv = s.csv ∧
            (inp.errLogFails = false → s1.errors = s.errors ++ [⟨inp.now, m⟩]) := by
  refine ⟨by decide, by decide, ?_⟩
  intro line hsh hbad
  have hlen : (splitOnChar ',' line).length = 3 := by
    have := hsh
    simp only [wellShaped, Bool.and_eq_true, decide_eq_true_eq] at this
    exact this.1.1.1
  have hne : line.isEmpty = false := ne_nil_of_three_parts hlen
  have herr : ∃ m, parseLine line = .error m := by
    unfold parseLine
    rw [if_pos hsh]
    cases hpt : pyFloat (secondColonPiece ((splitOnChar ',' line).getD 0 [])) with
    | none => exact ⟨_, rfl⟩
    | some t =>
      cases hpv : pyFloat (secondColonPiece ((splitOnChar ',' line).getD 1 [])) with
      | none => exact ⟨_, rfl⟩
      | some v =>
        rcases hbad with hb | hb
        · rw [hpt] at hb
          exact Option.noConfusion hb
        · rw [hpv] at hb
          exact Option.noConfusion hb
  obtain ⟨m, hm⟩ := herr
  refine ⟨m, hm, ?_⟩
  intro s inp hdec hstrip
  exact serviceStep_parse_error s inp line m hdec (by rw [hstrip]; exact hne) (by rw [hstrip]; exact hm)

/-- C3 witness: the amended theorem applied to the unparsable temperature
`T:abc,V:5.0,S:OK` with all sinks healthy. -/
theorem C3_witness :
    ∃ m, parseLine "T:abc,V:5.0,S:OK".data = .error m ∧
      ∃ s1, serviceStep emptySinks (mkInput (asciiBytes "T:abc,V:5.0,S:OK") "t0") = .ok s1 ∧
        s1.csv = emptySinks.csv ∧
        ((mkInput (asciiBytes "T:abc,V:5.0,S:OK") "t0").errLogFails = false →
          s1.errors = emptySinks.errors ++ [⟨"t0", m⟩]) := by
  obtain ⟨m, hm, hstep⟩ :=
    C3_theorem.2.2 "T:abc,V:5.0,S:OK".data (by decide) (Or.inl (by decide))
  exact ⟨m, hm, hstep emptySinks (mkInput (asciiBytes "T:abc,V:5.0,S:OK") "t0")
    (by decide) (by decide)⟩

/-! ### Claim C10 — whitespace after a comma separator -/

/-- C10: a comma separator followed by whitespace before the next field's
prefix makes the untrimmed piece fail its exact `startswith` check, so
parsing fails and (sinks permitting) a ParseErrorRecord is appended, even
if every field is otherwise well-formed. -/
theorem C10_theorem :
    ∀ (line : List Char),
      (splitOnChar ',' line).length = 3 →
      (pyIsSpace (((splitOnChar ',' line).getD 1 []).headD 'V') = true ∨
       pyIsSpace (((splitOnChar ',' line).getD 2 []).headD 'S') = true) →
      ∃ m, parseLine line = .error m ∧
        ∀ (s : SinkState) (inp : LineInput),
          utf8Decode inp.bytes = some line →
          pyStrip line = line →
          ∃ s1, serviceStep s inp = .ok s1 ∧ s1.csv = s.csv ∧
            (inp.errLogFails = false → s1.errors = s.errors ++ [⟨inp.now, m⟩]) := by
  intro line hlen hsp
  have hne : line.isEmpty = false := ne_nil_of_three_parts hlen
  have hsh : wellShaped (splitOnChar ',' line) = false := by
    rcases hsp with hs | hs
    · cases hpart : (splitOnChar ',' line).getD 1 [] with
      | nil => rw [hpart] at hs; exact absurd hs (by decide)
      | cons c cs =>
        rw [hpart] at hs
        simp only [List.headD_cons] at hs
        have hc : ('V' == c) = false := by
          cases hvc : ('V' == c) with
          | false => rfl
          | true =>
            have hceq : c = 'V' := (beq_iff_eq.mp hvc).symm
            rw [hceq] at hs
            exact absurd hs (by decide)
        simp only [wellShaped, hpart, pyStartswith, List.isPrefixOf, hc, Bool.false_and,
          Bool.and_false]
    · cases hpart : (splitOnChar ',' line).getD 2 [] with
      | nil => rw [hpart] at hs; exact absurd hs (by decide)
      | cons c cs =>
        rw [hpart] at hs
        simp only [List.headD_cons] at hs
        have hc : ('S' == c) = false := by
          cases hvc : ('S' == c) with
          | false => rfl
          | true =>
            have hceq : c = 'S' := (beq_iff_eq.mp hvc).symm
            rw [hceq] at hs
            exact absurd hs (by decide)
        simp only [wellShaped, hpart, pyStartswith, List.isPrefixOf, hc, Bool.false_and,
          Bool.and_false]
  have hm : parseLine line = .error "Malformed data structure" := by
    unfold parseLine
    rw [if_neg (by rw [hsh]; exact Bool.false_ne_true)]
  refine ⟨_, hm, ?_⟩
  intro s inp hdec hstrip
  exact serviceStep_parse_error s inp line _ hdec (by rw [hstrip]; exact hne)
    (by rw [hstrip]; exact hm)

/-- C10 witness: the theorem applied to the concrete line
`T:50.0, V:5.0,S:OK` (space after the first comma). -/
theorem C10_witness :
    ∃ m, parseLine "T:50.0, V:5.0,S:OK".data = .error m ∧
      ∃ s1, serviceStep emptySinks (mkInput (asciiBytes "T:50.0, V:5.0,S:OK") "t0") = .ok s1 ∧
        s1.csv = emptySinks.csv ∧
        ((mkInput (asciiBytes "T:50.0, V:5.0,S:OK") "t0").errLogFails = false →
          s1.errors = emptySinks.errors ++ [⟨"t0", m⟩]) := by
  obtain ⟨m, hm, hstep⟩ :=
    C10_theorem "T:50.0, V:5.0,S:OK".data (by decide) (Or.inl (by decide))
  exact ⟨m, hm, hstep emptySinks (mkInput (asciiBytes "T:50.0, V:5.0,S:OK") "t0")
    (by decide) (by decide)⟩

/-! ### Lemmas about the two diff-based detectors -/

/-- Membership characterization of the heartbeat detector's output. -/
theorem mem_heartbeatAnomalies {df : List Record} {a : Anomaly} :
    a ∈ heartbeatAnomalies df ↔
      ∃ j, j < df.length ∧ j ≠ 0 ∧ HEARTBEAT_TIMEOUT_SECONDS < timeDiff df j ∧
        a = ⟨(df.getD j default).timestamp, .heartbeatLoss, .critical, timeDiff df j⟩ := by
  unfold heartbeatAnomalies
  rw [List.mem_filterMap]
  constructor
  · rintro ⟨j, hj, hfj⟩
    rw [List.mem_range] at hj
    by_cases h0 : j = 0
    · rw [h0] at hfj
      simp at hfj
    · rw [if_neg h0] at hfj
      by_cases hgt : HEARTBEAT_TIMEOUT_SECONDS < timeDiff df j
      · rw [if_pos hgt] at hfj
        exact ⟨j, hj, h0, hgt, (Option.some.inj hfj).symm⟩
      · rw [if_neg hgt] at hfj
        exact absurd hfj (by simp)
  · rintro ⟨j, hj, h0, hgt, rfl⟩
    refine ⟨j, List.mem_range.mpr hj, ?_⟩
    rw [if_neg h0, if_pos hgt]

/-- Membership characterization of the rate-of-change detector's output. -/
theorem mem_rocAnomalies {df : List Record} {a : Anomaly} :
    a ∈ rocAnomalies df ↔
      ∃ j, j < df.length ∧ j ≠ 0 ∧ TEMP_RATE_OF_CHANGE_THRESHOLD < |tempChange df j| ∧
        a = ⟨(df.getD j default).timestamp, .rapidChangeTemp, .warning, tempChange df j⟩ := by
  unfold rocAnomalies
  rw [List.mem_filterMap]
  constructor
  · rintro ⟨j, hj, hfj⟩
    rw [List.mem_range] at hj
    by_cases h0 : j = 0
    · rw [h0] at hfj
      simp at hfj
    · rw [if_neg h0] at hfj
      by_cases hgt : TEMP_RATE_OF_CHANGE_THRESHOLD < |tempChange df j|
      · rw [if_pos hgt] at hfj
        exact ⟨j, hj, h0, hgt, (Option.some.inj hfj).symm⟩
      · rw [if_neg hgt] at hfj
        exact absurd hfj (by simp)
  · rintro ⟨j, hj, h0, hgt, rfl⟩
    refine ⟨j, List.mem_range.mpr hj, ?_⟩
    rw [if_neg h0, if_pos hgt]

/-- In a time-sorted frame the timestamps read through `getD` are
monotone. -/
theorem timestamp_getD_mono {df : List Record} (hs : df.Pairwise recordLE)
    {a b : ℕ} (hab : a ≤ b) (hb : b < df.length) :
    (df.getD a default).timestamp ≤ (df.getD b default).timestamp := by
  rcases lt_or_eq_of_le hab with hlt | heq
  · have ha : a < df.length := lt_trans hlt hb
    rw [List.getD_eq_get _ _ ha, List.getD_eq_get _ _ hb]
    exact List.pairwise_iff_get.mp hs ⟨a, ha⟩ ⟨b, hb⟩ hlt
  · rw [heq]

/-- In a time-sorted frame, a row that fires the heartbeat detector has a
timestamp strictly above every earlier row's. -/
theorem ts_lt_of_heartbeat_fire {df : List Record} (hs : df.Pairwise recordLE)
    {j k : ℕ} (hk : k < df.length) (hjk : j < k)
    (hgt : HEARTBEAT_TIMEOUT_SECONDS < timeDiff df k) :
    (df.getD j default).timestamp < (df.getD k default).timestamp := by
  have h1 : (df.getD j default).timestamp ≤ (df.getD (k - 1) default).timestamp :=
    timestamp_getD_mono hs (by omega) (by omega)
  have h2 : (df.getD (k - 1) default).timestamp < (df.getD k default).timestamp := by
    unfold timeDiff at hgt
    unfold HEARTBEAT_TIMEOUT_SECONDS at hgt
    linarith
  linarith

/-- Decomposition of one entry of the heartbeat scan. -/
theorem heartbeat_entry_eq {df : List Record} {j : ℕ} {a : Anomaly}
    (h : a ∈ (if j = 0 then none
              else if HEARTBEAT_TIMEOUT_SECONDS < timeDiff df j then
                some (⟨(df.getD j default).timestamp, .heartbeatLoss, .critical,
                  timeDiff df j⟩ : Anomaly)
              else none)) :
    j ≠ 0 ∧ HEARTBEAT_TIMEOUT_SECONDS < timeDiff df j ∧
      a = ⟨(df.getD j default).timestamp, .heartbeatLoss, .critical, timeDiff df j⟩ := by
  by_cases h0 : j = 0
  · rw [h0] at h
    simp at h
  rw [if_neg h0] at h
  by_cases hgt : HEARTBEAT_TIMEOUT_SECONDS < timeDiff df j
  · rw [if_pos hgt] at h
    simp only [Option.mem_def, Option.some.injEq] at h
    exact ⟨h0, hgt, h.symm⟩
  · rw [if_neg hgt] at h
    exact absurd h (by simp)

/-- In a time-sorted frame the heartbeat anomalies are pairwise distinct:
two different firing rows have strictly different timestamps. -/
theorem heartbeatAnomalies_nodup {df : List Record} (hs : df.Pairwise recordLE) :
    (heartbeatAnomalies df).Nodup := by
  unfold heartbeatAnomalies
  rw [List.Nodup, List.pairwise_filterMap]
  refine (List.pairwise_lt_range df.length).imp_of_mem ?_
  intro j k hj hk hjk
  intro a haj a' hak
  rw [List.mem_range] at hk
  obtain ⟨hj0, hjgt, haeq⟩ := heartbeat_entry_eq haj
  obtain ⟨hk0, hkgt, haeq'⟩ := heartbeat_entry_eq hak
  have hts : (df.getD j default).timestamp < (df.getD k default).timestamp :=
    ts_lt_of_heartbeat_fire hs hk hjk hkgt
  intro hcontra
  rw [haeq, haeq'] at hcontra
  have := congrArg Anomaly.timestamp hcontra
  simp only at this
  exact absurd this (ne_of_lt hts)

/-! ### Claim C7 — heartbeat loss -/

/-- C7: in a time-sorted frame, the pair (i, i+1) yields exactly one
CRITICAL heartbeat-loss anomaly, carrying row i+1's timestamp and the gap
in seconds, iff the gap exceeds the timeout strictly; a gap equal to the
timeout (or anything smaller) yields none. -/
theorem C7_theorem :
    ∀ (df : List Record), df.Pairwise recordLE → ∀ i, i + 1 < df.length →
      (heartbeatAnomalies df).count
        ⟨(df.getD (i + 1) default).timestamp, .heartbeatLoss, .critical, timeDiff df (i + 1)⟩ =
        if HEARTBEAT_TIMEOUT_SECONDS < timeDiff df (i + 1) then 1 else 0 := by
  intro df hs i hi
  by_cases hgt : HEARTBEAT_TIMEOUT_SECONDS < timeDiff df (i + 1)
  · rw [if_pos hgt]
    refine List.count_eq_one_of_mem (heartbeatAnomalies_nodup hs) ?_
    exact mem_heartbeatAnomalies.mpr ⟨i + 1, hi, Nat.succ_ne_zero i, hgt, rfl⟩
  · rw [if_neg hgt]
    rw [List.count_eq_zero]
    intro hmem
    obtain ⟨j, hj, hj0, hjgt, heq⟩ := mem_heartbeatAnomalies.mp hmem
    have hval := congrArg Anomaly.value heq
    simp only at hval
    rw [← hval] at hjgt
    exact hgt hjgt

def heartbeatExampleDf : List Record := [⟨0, 50, 5, "a"⟩, ⟨5, 50, 5, "b"⟩]

/-- C7 witness: two readings 5 seconds apart (timeout 4) produce exactly
one heartbeat-loss anomaly at the second timestamp with a 5-second gap. -/
theorem C7_witness :
    (heartbeatAnomalies heartbeatExampleDf).count ⟨5, .heartbeatLoss, .critical, 5⟩ = 1 := by
  have hp : heartbeatExampleDf.Pairwise recordLE := by
    norm_num [heartbeatExampleDf, List.pairwise_cons, recordLE]
  have h := C7_theorem heartbeatExampleDf hp 0 (by norm_num [heartbeatExampleDf])
  have ht : timeDiff heartbeatExampleDf 1 = 5 := by
    norm_num [timeDiff, heartbeatExampleDf]
  have hts : (heartbeatExampleDf.getD 1 default).timestamp = 5 := by
    simp [heartbeatExampleDf]
  rw [ht, hts] at h
  simp only [HEARTBEAT_TIMEOUT_SECONDS] at h
  norm_num at h
  exact h

/-! ### Claim C8 — rate of change -/

/-- C8: in the frame handed to the detectors, the pair (i, i+1) yields a
WARNING rapid-change anomaly carrying row i+1's timestamp and the signed
delta iff the absolute delta exceeds the threshold strictly; and every
rapid-change anomaly arises from such a pair — the first row of the frame
(no predecessor, NaN diff) never fires. -/
theorem C8_theorem :
    ∀ (df : List Record),
      (∀ i, i + 1 < df.length →
        ((⟨(df.getD (i + 1) default).timestamp, .rapidChangeTemp, .warning,
            tempChange df (i + 1)⟩ : Anomaly) ∈ rocAnomalies df ↔
          TEMP_RATE_OF_CHANGE_THRESHOLD < |tempChange df (i + 1)|)) ∧
      (∀ a ∈ rocAnomalies df, ∃ i, i + 1 < df.length ∧
        TEMP_RATE_OF_CHANGE_THRESHOLD < |tempChange df (i + 1)| ∧
        a = ⟨(df.getD (i + 1) default).timestamp, .rapidChangeTemp, .warning,
          tempChange df (i + 1)⟩) := by
  intro df
  constructor
  · intro i hi
    constructor
    · intro hmem
      obtain ⟨j, hj, hj0, hjgt, heq⟩ := mem_rocAnomalies.mp hmem
      have hval := congrArg Anomaly.value heq
      simp only at hval
      rw [← hval] at hjgt
      exact hjgt
    · intro hgt
      exact mem_rocAnomalies.mpr ⟨i + 1, hi, Nat.succ_ne_zero i, hgt, rfl⟩
  · intro a ha
    obtain ⟨j, hj, hj0, hjgt, heq⟩ := mem_rocAnomalies.mp ha
    obtain ⟨i, rfl⟩ : ∃ i, j = i + 1 := ⟨j - 1, by omega⟩
    exact ⟨i, hj, hjgt, heq⟩

def rocExampleDf : List Record := [⟨0, 191 / 2, 5, "a"⟩, ⟨1, 25, 5, "b"⟩]

/-- C8 witness: the temperature sequence 95.5, 25.0 (threshold 15) fires
one rapid-change anomaly at the second row with signed delta −70.5. -/
theorem C8_witness :
    (⟨1, .rapidChangeTemp, .warning, -(141 / 2)⟩ : Anomaly) ∈ rocAnomalies rocExampleDf := by
  have h := (C8_theorem rocExampleDf).1 0 (by norm_num [rocExampleDf])
  have ht : tempChange rocExampleDf 1 = -(141 / 2) := by
    norm_num [tempChange, rocExampleDf]
  have hts : (rocExampleDf.getD 1 default).timestamp = 1 := by
    simp [rocExampleDf]
  rw [ht, hts] at h
  apply h.mpr
  simp only [TEMP_RATE_OF_CHANGE_THRESHOLD]
  rw [abs_of_nonpos (by norm_num)]
  norm_num

/-! ### Claim C9 — merged report order -/

/-- Inserting an anomaly into a list leaves the sub-sequence at any fixed
timestamp unchanged, except that an anomaly carrying that timestamp lands
at its front: every element the insertion walks past has a strictly
smaller timestamp. -/
theorem filter_orderedInsert_timestamp (t : ℚ) (a : Anomaly) (l : List Anomaly) :
    (List.orderedInsert anomalyLE a l).filter (fun x => decide (x.timestamp = t)) =
      if a.timestamp = t then
        a :: l.filter (fun x => decide (x.timestamp = t))
      else l.filter (fun x => decide (x.timestamp = t)) := by
  induction l with
  | nil =>
    simp only [List.orderedInsert_nil, List.filter_cons, List.filter_nil, decide_eq_true_eq]
  | cons b bs ih =>
    rw [List.orderedInsert]
    by_cases hab : anomalyLE a b
    · rw [if_pos hab]
      simp only [List.filter_cons, decide_eq_true_eq]
    · rw [if_neg hab]
      have hbt : b.timestamp < a.timestamp := lt_of_not_le (fun h => hab h)
      simp only [List.filter_cons, ih, decide_eq_true_eq]
      split_ifs <;> first | rfl | linarith

/-- A stable sort: sorting by timestamp preserves the sub-sequence of
anomalies at each fixed timestamp. -/
theorem filter_insertionSort_timestamp (t : ℚ) (l : List Anomaly) :
    (List.insertionSort anomalyLE l).filter (fun x => decide (x.timestamp = t)) =
      l.filter (fun x => decide (x.timestamp = t)) := by
  induction l with
  | nil => rfl
  | cons a as ih =>
    rw [List.insertionSort, filter_orderedInsert_timestamp, ih, List.filter_cons]
    simp only [decide_eq_true_eq]

/-- C9: for any input row ordering, the final anomaly sequence is sorted
ascending by timestamp, and at every fixed timestamp the anomalies appear
exactly as the four detectors emitted them, in detector order —
temperature threshold, voltage threshold, rate of change, heartbeat. -/
theorem C9_theorem :
    ∀ (records : List Record),
      List.Pairwise anomalyLE (detect records) ∧
      ∀ t : ℚ,
        (detect records).filter (fun a => decide (a.timestamp = t)) =
          (tempAnomalies (sortValuesByTimestamp records)).filter
              (fun a => decide (a.timestamp = t)) ++
            (voltageAnomalies (sortValuesByTimestamp records)).filter
              (fun a => decide (a.timestamp = t)) ++
            (rocAnomalies (sortValuesByTimestamp records)).filter
              (fun a => decide (a.timestamp = t)) ++
            (heartbeatAnomalies (sortValuesByTimestamp records)).filter
              (fun a => decide (a.timestamp = t)) := by
  intro records
  constructor
  · exact List.sorted_insertionSort anomalyLE (allDetectorAnomalies (sortValuesByTimestamp records))
  · intro t
    unfold detect
    rw [filter_insertionSort_timestamp]
    unfold allDetectorAnomalies
    rw [List.filter_append, List.filter_append, List.filter_append]

end VSDL
